import Mathlib

/-!
Shallow embedding of the chromatin job-processing core:
  * the pairwise-alignment result derivation (`_generate_cigar`,
    `_calculate_alignment_stats` in `api/jobs/tasks.py`),
  * the PDB confidence-score extraction and the structure-prediction
    handler (`_extract_confidence_scores_from_pdb`,
    `process_structure_prediction` in `api/jobs/tasks.py`),
  * the job record store operations (`api/jobs/service.py`) and the
    worker path (`_process_job_async` / `process_job` in
    `api/jobs/tasks.py`).

Python strings are modelled as `String`, floats as `ℚ`, database rows as
records, fallible operations as `Except`, and the worker/handler side
effects (external service calls, cache writes) as explicit outputs.
-/

namespace Chromatin

/-! ## Alignment result derivation (`api/jobs/tasks.py`) -/

/-- Per-column operation as computed inside the loop of `_generate_cigar`:
`D` when the first sequence has the gap symbol, else `I` when the second
has it, else `M`. -/
def cigarClass (base1 base2 : Char) : Char :=
  if base1 = '-' then 'D' else if base2 = '-' then 'I' else 'M'

/-- The accumulation loop of `_generate_cigar`: walks the zipped aligned
pair keeping the current operation and its run count, emitting
`f"{count}{op}"` tokens when the operation changes, plus a final token. -/
def cigarLoop : List (Char × Char) → Option Char → Nat → List String → List String
  | [], currentOp, count, acc =>
      match currentOp with
      | none => acc
      | some c => acc ++ [toString count ++ c.toString]
  | (base1, base2) :: rest, currentOp, count, acc =>
      let op := cigarClass base1 base2
      match currentOp with
      | some c =>
          if op = c then cigarLoop rest (some c) (count + 1) acc
          else cigarLoop rest (some op) 1 (acc ++ [toString count ++ c.toString])
      | none => cigarLoop rest (some op) 1 acc

/-- `_generate_cigar(aligned_seq1, aligned_seq2)`: CIGAR string from the
aligned pair, run-length encoding the per-column classification. -/
def generate_cigar (aligned_seq1 aligned_seq2 : String) : String :=
  String.join (cigarLoop (aligned_seq1.data.zip aligned_seq2.data) none 0 [])

/-- Result shape of `_calculate_alignment_stats`. -/
structure AlignmentStats where
  alignment_length : Nat
  «matches» : Nat
  mismatches : Nat
  gaps : Nat
  identity_percent : ℚ
deriving DecidableEq, Repr

/-- Python `round(x, 2)` on exact values: round half to even at the second
decimal place. -/
def round2 (q : ℚ) : ℚ :=
  let n := q * 100
  let f : ℤ := ⌊n⌋
  let r : ℚ := n - (f : ℚ)
  let k : ℤ :=
    if r < 1 / 2 then f
    else if 1 / 2 < r then f + 1
    else if f % 2 = 0 then f else f + 1
  (k : ℚ) / 100

/-- The counting loop of `_calculate_alignment_stats`: a column is a gap
when either side is the gap symbol, otherwise a match when equal, else a
mismatch. -/
def statsLoop : List (Char × Char) → Nat → Nat → Nat → Nat × Nat × Nat
  | [], «matches», mismatches, gaps => («matches», mismatches, gaps)
  | (base1, base2) :: rest, «matches», mismatches, gaps =>
      if base1 = '-' ∨ base2 = '-' then statsLoop rest «matches» mismatches (gaps + 1)
      else if base1 = base2 then statsLoop rest («matches» + 1) mismatches gaps
      else statsLoop rest «matches» (mismatches + 1) gaps

/-- `_calculate_alignment_stats(aligned_seq1, aligned_seq2)`:
`alignment_length` is the length of the first string, the counts come
from the loop over the zipped pair, and the identity percentage is
`«matches» / non_gap_length * 100` (0.0 when no non-gap column), rounded to
two decimals. -/
def calculate_alignment_stats (aligned_seq1 aligned_seq2 : String) : AlignmentStats :=
  let alignment_length := aligned_seq1.length
  let counts := statsLoop (aligned_seq1.data.zip aligned_seq2.data) 0 0 0
  let «matches» := counts.1
  let mismatches := counts.2.1
  let gaps := counts.2.2
  let non_gap_length := alignment_length - gaps
  let identity_percent : ℚ :=
    if 0 < non_gap_length then («matches» : ℚ) / (non_gap_length : ℚ) * 100 else 0
  { alignment_length := alignment_length
    «matches» := «matches»
    mismatches := mismatches
    gaps := gaps
    identity_percent := round2 identity_percent }

/-! Declarative (spec-side) counterparts for the alignment statistics and
the CIGAR classification, used to state the claims. -/

/-- A column is a gap when either side holds the gap symbol. -/
def isGapPos (p : Char × Char) : Bool := p.1 == '-' || p.2 == '-'

/-- A column is a match when both sides are non-gap and equal. -/
def isMatchPos (p : Char × Char) : Bool := !(isGapPos p) && p.1 == p.2

/-- A column is a mismatch when both sides are non-gap and different. -/
def isMismatchPos (p : Char × Char) : Bool := !(isGapPos p) && p.1 != p.2

/-- The spec's M/I/D classification: `M` when both sides are non-gap, `I`
when the gap is on the second sequence only, `D` when the gap is on the
first sequence only; a column with gaps on both sides has no class. -/
def specClassify (base1 base2 : Char) : Option Char :=
  if base1 ≠ '-' ∧ base2 ≠ '-' then some 'M'
  else if base1 ≠ '-' ∧ base2 = '-' then some 'I'
  else if base1 = '-' ∧ base2 ≠ '-' then some 'D'
  else none

/-- Run-length encoding of a list of classes: maximal runs, left to right. -/
def rleChar : List Char → List (Nat × Char)
  | [] => []
  | c :: cs =>
      match rleChar cs with
      | [] => [(1, c)]
      | (n, d) :: rest => if c = d then (n + 1, d) :: rest else (1, c) :: (n, d) :: rest

/-- Render one run as `f"{count}{op}"`. -/
def renderRun (run : Nat × Char) : String := toString run.1 ++ run.2.toString

/-- Render a run-length encoded class list as a CIGAR string. -/
def renderCigar (runs : List (Nat × Char)) : String := String.join (runs.map renderRun)

/-- Prepend a run of `n` copies of `c` onto an encoded list, merging with
the head run when the class agrees (proof helper for the CIGAR loop). -/
def consRun (n : Nat) (c : Char) : List (Nat × Char) → List (Nat × Char)
  | [] => [(n, c)]
  | (m, d) :: rest => if c = d then (n + m, d) :: rest else (n, c) :: (m, d) :: rest

/-! ## PDB confidence extraction (`api/jobs/tasks.py`) -/

/-- Split a character list at every occurrence of `sep`. -/
def splitChars (sep : Char) : List Char → List (List Char)
  | [] => [[]]
  | c :: cs =>
      if c = sep then [] :: splitChars sep cs
      else
        match splitChars sep cs with
        | [] => [[c]]
        | h :: t => (c :: h) :: t

/-- Python `str.splitlines()` on newline-separated content. -/
def splitlines (s : String) : List String := (splitChars '\n' s.data).map (fun l => ⟨l⟩)

/-- Python slice `s[a:b]` on characters. -/
def pySlice (s : String) (a b : Nat) : String := ⟨(s.data.drop a).take (b - a)⟩

/-- Does the character list start with the given pattern? -/
def startsWithChars : List Char → List Char → Bool
  | _, [] => true
  | [], _ :: _ => false
  | c :: cs, p :: ps => c == p && startsWithChars cs ps

/-- Python `str.startswith(pat)`. -/
def pyStartsWith (s pat : String) : Bool := startsWithChars s.data pat.data

/-- Python `str.strip()`: drop whitespace from both ends. -/
def pyStrip (s : String) : String :=
  ⟨((s.data.dropWhile Char.isWhitespace).reverse.dropWhile Char.isWhitespace).reverse⟩

/-- Numeric value of a digit run. -/
def digitsVal (cs : List Char) : Nat := cs.foldl (fun n c => 10 * n + (c.toNat - 48)) 0

/-- Unsigned decimal literal: integer part, optional fraction. -/
def parseUnsignedDecimal? (cs : List Char) : Option ℚ :=
  let ip := cs.takeWhile Char.isDigit
  let rest := cs.dropWhile Char.isDigit
  match rest with
  | [] => if ip.isEmpty then none else some (digitsVal ip : ℚ)
  | '.' :: fr =>
      let fp := fr.takeWhile Char.isDigit
      let rest2 := fr.dropWhile Char.isDigit
      if rest2.isEmpty ∧ ¬(ip.isEmpty ∧ fp.isEmpty) then
        some ((digitsVal ip : ℚ) + (digitsVal fp : ℚ) / (10 : ℚ) ^ fp.length)
      else none
  | _ => none

/-- Python `float(s)` restricted to plain decimal literals with an optional
sign — the format of PDB temperature-factor fields; `none` models the
`ValueError` branch. -/
def parseFloat? (s : String) : Option ℚ :=
  match s.data with
  | '-' :: cs => (parseUnsignedDecimal? cs).map (fun q => -q)
  | '+' :: cs => parseUnsignedDecimal? cs
  | cs => parseUnsignedDecimal? cs

/-- `_extract_confidence_scores_from_pdb(pdb_content)`: for every line that
starts with `ATOM` or `HETATM`, parse columns `[60:66]` (the temperature
factor, holding the pLDDT value) as a float; unparsable fields are
skipped, and one value is appended per atom record. -/
def extract_confidence_scores_from_pdb (pdb_content : String) : List ℚ :=
  (splitlines pdb_content).filterMap (fun line =>
    if pyStartsWith line "ATOM" || pyStartsWith line "HETATM" then
      parseFloat? (pyStrip (pySlice line 60 66))
    else none)

/-- Spec-side notion of the residues present in a PDB payload: the distinct
chain-id/residue-number/insertion-code fields (columns `[21:27]`) over the
atomic coordinate records. -/
def residueIds (pdb_content : String) : List String :=
  (((splitlines pdb_content).filter (fun line =>
      pyStartsWith line "ATOM" || pyStartsWith line "HETATM")).map
    (fun line => pySlice line 21 27)).dedup

/-! ## Structure prediction handler (`api/jobs/tasks.py`) -/

/-- Error taxonomy of the core (`core/exceptions.py`): the claims only
distinguish not-found from validation errors. -/
inductive TaskError
  | notFound
  | validation (msg : String)
deriving DecidableEq, Repr

/-- Modelled from the spec: `sequences/enums.py` is absent from the
sources; §4.2 names the declared sequence types DNA, RNA and PROTEIN. -/
inductive SequenceType
  | DNA
  | RNA
  | PROTEIN
deriving DecidableEq, Repr

/-- Modelled from the spec: the sequence-store collaborator
`resolve(sequence_id) -> {residue_data, declared_type, display_name,
length}` (§6); `get_sequence_internal` / `get_sequence_data` are absent
from the sources, so a resolved sequence row is an input here. -/
structure SequenceRec where
  id : Nat
  name : String
  sequence_type : SequenceType
  length : Nat
  data : String

/-- A `SequenceStructure` cache row (`api/sequences/models.py`). -/
structure StructureRec where
  id : Nat
  sequence_id : Nat
  source : String
  sequence_hash : String
  residue_count : Nat
  mean_confidence : ℚ
  min_confidence : ℚ
  max_confidence : ℚ
  confidence_scores : List ℚ
deriving DecidableEq, Repr

/-- `StructurePredictionParams` (`api/jobs/schemas.py`). -/
structure StructurePredictionParams where
  sequence_id : Nat
  force_recompute : Bool
deriving DecidableEq, Repr

/-- The `STRUCTURE_PREDICTION` result payload built by
`process_structure_prediction`. -/
structure StructResult where
  sequence_id : Nat
  sequence_name : String
  structure_id : Nat
  source : String
  cached_result : Bool
  residue_count : Nat
  mean_confidence : ℚ
  min_confidence : ℚ
  max_confidence : ℚ
  confidence_scores : List ℚ
  pdb_download_path : String
deriving DecidableEq, Repr

/-- Environment of one structure-prediction run: the resolved sequence,
the current cache row for its id (if any), the content-hash function, the
external prediction service (returning a PDB payload or an error detail),
the configured residue ceiling `ESMFOLD_MAX_RESIDUES`, and the row id the
persistence layer would assign to a new cache entry. -/
structure PredEnv where
  seq : SequenceRec
  cache : Option StructureRec
  sha256 : String → String
  esmfold : String → Except String String
  maxResidues : Nat
  nextStructureId : Nat

/-- Outcome of one structure-prediction run: the handler's result or
error, whether the external service was called, and the cache row written
(if any). -/
structure PredOutcome where
  result : Except TaskError StructResult
  esmfoldCalled : Bool
  saved : Option StructureRec

/-- Smallest element of a confidence list (0 for the empty list, which the
handler never passes). -/
def listMin : List ℚ → ℚ
  | [] => 0
  | h :: t => t.foldl min h

/-- Largest element of a confidence list. -/
def listMax : List ℚ → ℚ
  | [] => 0
  | h :: t => t.foldl max h

/-- Modelled from the spec: `save_sequence_structure_prediction` is absent
from the sources. Per §4.3 persistence, the cache row for the sequence is
upserted with the service's source tag, the new content hash,
`residue_count = len(recovered list)`, the mean/min/max aggregates and
the full per-residue list. -/
def save_sequence_structure_prediction (seq : SequenceRec) (confidence_scores : List ℚ)
    (sequence_hash : String) (env : PredEnv) : StructureRec :=
  { id := env.nextStructureId
    sequence_id := seq.id
    source := "esmfold"
    sequence_hash := sequence_hash
    residue_count := confidence_scores.length
    mean_confidence := confidence_scores.sum / (confidence_scores.length : ℚ)
    min_confidence := listMin confidence_scores
    max_confidence := listMax confidence_scores
    confidence_scores := confidence_scores }

/-- Truncation of an upstream error detail to at most 200 characters, as
in `_request_esmfold_prediction`. -/
def truncateDetail (detail : String) : String :=
  if detail.length > 200 then pySlice detail 0 200 ++ "..." else detail

/-- The cache-miss / forced-recompute path of `process_structure_prediction`:
call the external service (both of `_request_esmfold_prediction`'s failure
branches surface as a validation error), extract the confidence scores,
fail when none are recovered, otherwise upsert the cache row and build the
fresh (non-cached) result payload. -/
def structureMiss (seq : SequenceRec) (sequence_hash : String) (env : PredEnv) : PredOutcome :=
  match env.esmfold seq.data with
  | .error detail =>
      { result := .error (.validation ("ESMFold API error: " ++ truncateDetail detail))
        esmfoldCalled := true
        saved := none }
  | .ok pdb_content =>
      let confidence_scores := extract_confidence_scores_from_pdb pdb_content
      if confidence_scores.isEmpty then
        { result := .error
            (.validation "ESMFold response did not contain residue confidence scores.")
          esmfoldCalled := true
          saved := none }
      else
        let structureRow := save_sequence_structure_prediction seq confidence_scores
          sequence_hash env
        { result := .ok
            { sequence_id := seq.id
              sequence_name := seq.name
              structure_id := structureRow.id
              source := structureRow.source
              cached_result := false
              residue_count := structureRow.residue_count
              mean_confidence := structureRow.mean_confidence
              min_confidence := structureRow.min_confidence
              max_confidence := structureRow.max_confidence
              confidence_scores := structureRow.confidence_scores
              pdb_download_path := "/api/sequences/" ++ toString seq.id ++
                "/structure/download" }
          esmfoldCalled := true
          saved := some structureRow }

/-- `process_structure_prediction(params, db)`: reject non-protein
sequences, then over-long sequences; hash the current residue data; if a
cache row exists with a matching hash and `force_recompute` is false,
return its metrics as a cache hit without calling the service; otherwise
run the miss path. -/
def process_structure_prediction (params : StructurePredictionParams) (env : PredEnv) :
    PredOutcome :=
  let seq := env.seq
  if seq.sequence_type ≠ SequenceType.PROTEIN then
    { result := .error
        (.validation "Structure prediction is only supported for protein sequences.")
      esmfoldCalled := false
      saved := none }
  else if seq.length > env.maxResidues then
    { result := .error
        (.validation ("Sequence length " ++ toString seq.length ++
          " exceeds ESMFold limit of " ++ toString env.maxResidues ++ " residues."))
      esmfoldCalled := false
      saved := none }
  else
    let sequence_hash := env.sha256 seq.data
    match env.cache with
    | some existing_structure =>
        if existing_structure.sequence_hash = sequence_hash ∧
            params.force_recompute = false then
          { result := .ok
              { sequence_id := seq.id
                sequence_name := seq.name
                structure_id := existing_structure.id
                source := existing_structure.source
                cached_result := true
                residue_count := existing_structure.residue_count
                mean_confidence := existing_structure.mean_confidence
                min_confidence := existing_structure.min_confidence
                max_confidence := existing_structure.max_confidence
                confidence_scores := existing_structure.confidence_scores
                pdb_download_path := "/api/sequences/" ++ toString seq.id ++
                  "/structure/download" }
            esmfoldCalled := false
            saved := none }
        else structureMiss seq sequence_hash env
    | none => structureMiss seq sequence_hash env

/-! ## Job record store (`api/jobs/service.py`) and worker path
(`api/jobs/tasks.py`) -/

/-- `JobStatus` (`api/jobs/enums.py`). -/
inductive JobStatus
  | PENDING
  | RUNNING
  | COMPLETED
  | FAILED
  | CANCELLED
deriving DecidableEq, Repr

/-- The `.value` string of a status. -/
def JobStatus.value : JobStatus → String
  | .PENDING => "PENDING"
  | .RUNNING => "RUNNING"
  | .COMPLETED => "COMPLETED"
  | .FAILED => "FAILED"
  | .CANCELLED => "CANCELLED"

/-- Terminal statuses per §4.1: COMPLETED, FAILED, CANCELLED. -/
def JobStatus.isTerminal : JobStatus → Bool
  | .COMPLETED => true
  | .FAILED => true
  | .CANCELLED => true
  | _ => false

/-- A `Job` row (`api/jobs/models.py`): ownership, status, and the
nullable result / error / completion-time columns. The variant result
payload is abstracted to a string, timestamps to naturals. -/
structure Job where
  user_id : Nat
  status : JobStatus
  result : Option String
  error_message : Option String
  completed_at : Option Nat
deriving DecidableEq, Repr

/-- The jobs table, keyed by row id. -/
abbrev JobStore := List (Nat × Job)

/-- Write back the mutated row with the given id. -/
def setJob (job_id : Nat) (j : Job) : JobStore → JobStore :=
  List.map (fun e => if e.1 = job_id then (e.1, j) else e)

/-- `create_job`: insert a fresh row with `status=PENDING` and null
result / error / completion columns. -/
def create_job (user_id : Nat) (job_id : Nat) (store : JobStore) : JobStore :=
  (job_id,
    { user_id := user_id
      status := JobStatus.PENDING
      result := none
      error_message := none
      completed_at := none }) :: store

/-- `update_job_status(job_id, status, db)`: look the row up (NotFound when
absent) and set its status — nothing else is read or written. -/
def update_job_status (job_id : Nat) (status : JobStatus) (store : JobStore) :
    Except TaskError JobStore :=
  match store.lookup job_id with
  | none => .error .notFound
  | some job => .ok (setJob job_id { job with status := status } store)

/-- `mark_job_completed(job_id, result, db)`: set status COMPLETED, store
the result, set `completed_at`. -/
def mark_job_completed (job_id : Nat) (result : String) (now : Nat) (store : JobStore) :
    Except TaskError JobStore :=
  match store.lookup job_id with
  | none => .error .notFound
  | some job =>
      .ok (setJob job_id
        { job with
          status := JobStatus.COMPLETED
          result := some result
          completed_at := some now } store)

/-- `mark_job_failed(job_id, error_message, db)`: set status FAILED, store
the error message, set `completed_at`. -/
def mark_job_failed (job_id : Nat) (error_message : String) (now : Nat) (store : JobStore) :
    Except TaskError JobStore :=
  match store.lookup job_id with
  | none => .error .notFound
  | some job =>
      .ok (setJob job_id
        { job with
          status := JobStatus.FAILED
          error_message := some error_message
          completed_at := some now } store)

/-- The message of `cancel_job`'s validation error. -/
def cancelErrorMessage (status : JobStatus) : String :=
  "Cannot cancel job with status " ++ status.value ++
    ". Only PENDING or RUNNING jobs can be cancelled."

/-- `cancel_job(job_id, user_id, db)`: look the row up (NotFound when
absent), hide non-owned rows as NotFound, reject a status outside
{PENDING, RUNNING} with a validation error, otherwise revoke the task and
set status CANCELLED with `completed_at`. -/
def cancel_job (job_id : Nat) (user_id : Nat) (now : Nat) (store : JobStore) :
    Except TaskError JobStore :=
  match store.lookup job_id with
  | none => .error .notFound
  | some job =>
      if job.user_id ≠ user_id then .error .notFound
      else if job.status = JobStatus.PENDING ∨ job.status = JobStatus.RUNNING then
        .ok (setJob job_id
          { job with status := JobStatus.CANCELLED, completed_at := some now } store)
      else .error (.validation (cancelErrorMessage job.status))

/-- Diagnostic built by `JobTask.on_failure` from the raised error: class
name plus message (the captured traceback is not modelled). -/
def errorMessageOf : TaskError → String
  | .notFound => "NotFoundError: resource not found"
  | .validation m => "ValidationError: " ++ m

/-- The worker path `process_job` / `_process_job_async` with the
`JobTask.on_failure` hook: commit status RUNNING unconditionally, load the
row, run the dispatched handler on it, then commit `mark_job_completed` on
success or `mark_job_failed` on any handler error. Returns the task's own
outcome together with the store as left by the committed transactions. -/
def process_job (job_id : Nat) (handler : Job → Except TaskError String) (now : Nat)
    (store : JobStore) : Except TaskError String × JobStore :=
  match update_job_status job_id JobStatus.RUNNING store with
  | .error e => (.error e, store)
  | .ok store1 =>
      match store1.lookup job_id with
      | none => (.error .notFound, store1)
      | some job =>
          match handler job with
          | .ok result =>
              match mark_job_completed job_id result now store1 with
              | .ok store2 => (.ok result, store2)
              | .error e => (.error e, store1)
          | .error e =>
              match mark_job_failed job_id (errorMessageOf e) now store1 with
              | .ok store2 => (.error e, store2)
              | .error _ => (.error e, store1)

/-- The §3 record invariants: `result` non-null iff COMPLETED,
`error_message` non-null iff FAILED, `completed_at` non-null iff
terminal. -/
def jobInvariant (j : Job) : Prop :=
  (j.result ≠ none ↔ j.status = JobStatus.COMPLETED) ∧
  (j.error_message ≠ none ↔ j.status = JobStatus.FAILED) ∧
  (j.completed_at ≠ none ↔ j.status.isTerminal = true)

instance (j : Job) : Decidable (jobInvariant j) := by
  unfold jobInvariant
  infer_instance

/-! Concrete inputs used to settle the structure-prediction claims. -/

/-- One PDB `ATOM` record (backbone nitrogen) of residue 1 of chain A,
with temperature-factor field " 90.00" at columns `[60:66]`; the segments
below are the fixed-width PDB columns. -/
def pdbLine1 : String :=
  "ATOM  " ++ "    1" ++ " " ++ " N  " ++ " " ++ "MET" ++ " " ++ "A" ++ "   1" ++ " " ++
    "   " ++ "   0.000" ++ "   0.000" ++ "   0.000" ++ "  1.00" ++ " 90.00"

/-- A second `ATOM` record (alpha carbon) of the same residue 1 of chain
A, carrying the same per-residue confidence value. -/
def pdbLine2 : String :=
  "ATOM  " ++ "    2" ++ " " ++ " CA " ++ " " ++ "MET" ++ " " ++ "A" ++ "   1" ++ " " ++
    "   " ++ "   0.000" ++ "   0.000" ++ "   0.000" ++ "  1.00" ++ " 90.00"

/-- A minimal successful service payload: two atomic coordinate records
belonging to one single residue. -/
def pdbTwoAtomsOneResidue : String := pdbLine1 ++ "\n" ++ pdbLine2

/-- A resolved PROTEIN sequence row used as concrete input. -/
def sampleProteinSeq : SequenceRec :=
  { id := 1, name := "seq-1", sequence_type := SequenceType.PROTEIN, length := 3,
    data := "ACD" }

/-- A cache row for `sampleProteinSeq` whose stored hash matches the
current content hash below. -/
def sampleStructureRow : StructureRec :=
  { id := 7, sequence_id := 1, source := "esmfold", sequence_hash := "h3",
    residue_count := 3, mean_confidence := 90, min_confidence := 88,
    max_confidence := 92, confidence_scores := [88, 90, 92] }

/-- Environment with a valid cache entry for the sample sequence. -/
def sampleCacheEnv : PredEnv :=
  { seq := sampleProteinSeq, cache := some sampleStructureRow,
    sha256 := fun _ => "h3", esmfold := fun _ => Except.ok pdbTwoAtomsOneResidue,
    maxResidues := 400, nextStructureId := 8 }

/-- A resolved DNA sequence row (invalid input for structure prediction). -/
def sampleDnaSeq : SequenceRec :=
  { id := 2, name := "seq-2", sequence_type := SequenceType.DNA, length := 3,
    data := "ACG" }

/-- Environment around the DNA sequence. -/
def sampleDnaEnv : PredEnv :=
  { seq := sampleDnaSeq, cache := none, sha256 := fun _ => "h3",
    esmfold := fun _ => Except.ok pdbTwoAtomsOneResidue, maxResidues := 400,
    nextStructureId := 9 }

/-- Does the outcome carry a validation error? -/
def PredOutcome.isValidationFailure (o : PredOutcome) : Bool :=
  match o.result with
  | Except.error (TaskError.validation _) => true
  | _ => false

/-! ## Lemmas: CIGAR loop vs. run-length encoding -/

/-- The head run produced by `consRun` carries the pushed class. -/
theorem consRun_shape (n : Nat) (c : Char) (l : List (Nat × Char)) :
    ∃ m r, consRun n c l = (m, c) :: r := by
  cases l with
  | nil => exact ⟨n, [], rfl⟩
  | cons hd tl =>
      obtain ⟨m, d⟩ := hd
      by_cases h : c = d
      · subst h
        exact ⟨n + m, tl, by simp [consRun]⟩
      · exact ⟨n, (m, d) :: tl, by simp [consRun, h]⟩

/-- Unfolding `rleChar` through `consRun`. -/
theorem rleChar_cons (c : Char) (l : List Char) :
    rleChar (c :: l) = consRun 1 c (rleChar l) := by
  cases h : rleChar l with
  | nil => simp [rleChar, consRun, h]
  | cons hd tl =>
      obtain ⟨m, d⟩ := hd
      by_cases hc : c = d
      · subst hc
        simp [rleChar, consRun, h, Nat.add_comm]
      · simp [rleChar, consRun, h, hc]

/-- Merging an incremented run agrees with pushing onto the encoded tail. -/
theorem consRun_rleChar_self (n : Nat) (c : Char) (l : List Char) :
    consRun n c (rleChar (c :: l)) = consRun (n + 1) c (rleChar l) := by
  cases h : rleChar l with
  | nil => simp [rleChar, consRun, h]
  | cons hd tl =>
      obtain ⟨m, d⟩ := hd
      by_cases hc : c = d
      · subst hc
        simp [rleChar, consRun, h]
        omega
      · simp [rleChar, consRun, h, hc]

/-- Invariant of the `_generate_cigar` loop: with a current run `(n, c)`
pending, the loop emits the rendered encoding of the remaining classes
with that run pushed in front. -/
theorem cigarLoop_some (pairs : List (Char × Char)) :
    ∀ (c : Char) (n : Nat) (acc : List String),
      cigarLoop pairs (some c) n acc =
        acc ++ (consRun n c
          (rleChar (pairs.map (fun p => cigarClass p.1 p.2)))).map renderRun := by
  induction pairs with
  | nil => intro c n acc; simp [cigarLoop, rleChar, consRun, renderRun]
  | cons p rest ih =>
      intro c n acc
      obtain ⟨b1, b2⟩ := p
      by_cases h : cigarClass b1 b2 = c
      · have hstep : cigarLoop ((b1, b2) :: rest) (some c) n acc =
            cigarLoop rest (some c) (n + 1) acc := by
          simp [cigarLoop, h]
        rw [hstep, ih c (n + 1) acc]
        have hrw : (rleChar (((b1, b2) :: rest).map (fun p => cigarClass p.1 p.2))) =
            rleChar (c :: rest.map (fun p => cigarClass p.1 p.2)) := by
          simp [h]
        rw [hrw, consRun_rleChar_self]
      · have hstep : cigarLoop ((b1, b2) :: rest) (some c) n acc =
            cigarLoop rest (some (cigarClass b1 b2)) 1 (acc ++ [toString n ++ c.toString]) := by
          simp [cigarLoop, h]
        rw [hstep, ih (cigarClass b1 b2) 1 (acc ++ [toString n ++ c.toString])]
        have hrw : rleChar (((b1, b2) :: rest).map (fun p => cigarClass p.1 p.2)) =
            consRun 1 (cigarClass b1 b2)
              (rleChar (rest.map (fun p => cigarClass p.1 p.2))) := by
          simp [rleChar_cons]
        rw [hrw]
        obtain ⟨m, r, hshape⟩ := consRun_shape 1 (cigarClass b1 b2)
          (rleChar (rest.map (fun p => cigarClass p.1 p.2)))
        rw [hshape]
        have hne : ¬ c = cigarClass b1 b2 := fun hh => h hh.symm
        simp [consRun, hne, renderRun]

/-- `_generate_cigar` equals rendering the run-length encoding of the
per-column classes. -/
theorem generate_cigar_eq_rle (s1 s2 : String) :
    generate_cigar s1 s2 =
      renderCigar (rleChar ((s1.data.zip s2.data).map (fun p => cigarClass p.1 p.2))) := by
  unfold generate_cigar renderCigar
  cases h : s1.data.zip s2.data with
  | nil => simp [cigarLoop, rleChar, h]
  | cons p rest =>
      obtain ⟨b1, b2⟩ := p
      simp only [cigarLoop]
      rw [cigarLoop_some rest (cigarClass b1 b2) 1 []]
      simp [rleChar_cons]

/-- On a column without gaps on both sides, the spec classification
returns exactly the loop's class. -/
theorem specClassify_eq_cigarClass (b1 b2 : Char) (h : ¬(b1 = '-' ∧ b2 = '-')) :
    specClassify b1 b2 = some (cigarClass b1 b2) := by
  by_cases h1 : b1 = '-'
  · have h2 : ¬ b2 = '-' := fun hh => h ⟨h1, hh⟩
    simp [specClassify, cigarClass, h1, h2]
  · by_cases h2 : b2 = '-'
    · simp [specClassify, cigarClass, h1, h2]
    · simp [specClassify, cigarClass, h1, h2]

/-- Under the no-double-gap condition, classifying by the spec rule keeps
every column and agrees with the loop's class. -/
theorem filterMap_specClassify (pairs : List (Char × Char))
    (h : ∀ p ∈ pairs, ¬(p.1 = '-' ∧ p.2 = '-')) :
    pairs.filterMap (fun p => specClassify p.1 p.2) =
      pairs.map (fun p => cigarClass p.1 p.2) := by
  induction pairs with
  | nil => rfl
  | cons p rest ih =>
      have hp := h p (List.mem_cons_self p rest)
      have hrest : ∀ q ∈ rest, ¬(q.1 = '-' ∧ q.2 = '-') :=
        fun q hq => h q (List.mem_cons_of_mem p hq)
      simp [List.filterMap_cons, specClassify_eq_cigarClass p.1 p.2 hp, ih hrest]

/-! ## Lemmas: alignment statistics -/

/-- The counting loop adds the declarative per-class counts to its
accumulators. -/
theorem statsLoop_spec (pairs : List (Char × Char)) :
    ∀ a b c, statsLoop pairs a b c =
      (a + pairs.countP isMatchPos, b + pairs.countP isMismatchPos,
        c + pairs.countP isGapPos) := by
  induction pairs with
  | nil => intro a b c; simp [statsLoop]
  | cons p rest ih =>
      intro a b c
      obtain ⟨b1, b2⟩ := p
      by_cases hg : b1 = '-' ∨ b2 = '-'
      · have hgap : isGapPos (b1, b2) = true := by
          simp [isGapPos]
          exact hg
        have hm : isMatchPos (b1, b2) = false := by simp [isMatchPos, hgap]
        have hmm : isMismatchPos (b1, b2) = false := by simp [isMismatchPos, hgap]
        simp only [statsLoop, if_pos hg]
        rw [ih]
        simp [List.countP_cons, hm, hmm, hgap]
        omega
      · have hgap : isGapPos (b1, b2) = false := by
          simp [isGapPos]
          exact ⟨fun h => hg (Or.inl h), fun h => hg (Or.inr h)⟩
        by_cases he : b1 = b2
        · subst he
          have hm : isMatchPos (b1, b1) = true := by
            simp [isMatchPos, hgap]
          have hmm : isMismatchPos (b1, b1) = false := by
            simp [isMismatchPos]
          simp only [statsLoop, if_neg hg, if_pos rfl]
          rw [ih]
          simp [List.countP_cons, hm, hmm, hgap]
          omega
        · have hm : isMatchPos (b1, b2) = false := by
            simp [isMatchPos, hgap, he]
          have hmm : isMismatchPos (b1, b2) = true := by
            simp [isMismatchPos, hgap, he]
          simp only [statsLoop, if_neg hg, if_neg he]
          rw [ih]
          simp [List.countP_cons, hm, hmm, hgap]
          omega

/-- Every column is exactly one of match, mismatch, gap. -/
theorem counts_partition (pairs : List (Char × Char)) :
    pairs.countP isMatchPos + pairs.countP isMismatchPos + pairs.countP isGapPos =
      pairs.length := by
  induction pairs with
  | nil => simp
  | cons p rest ih =>
      obtain ⟨b1, b2⟩ := p
      by_cases hg : isGapPos (b1, b2)
      · have hm : isMatchPos (b1, b2) = false := by simp [isMatchPos, hg]
        have hmm : isMismatchPos (b1, b2) = false := by simp [isMismatchPos, hg]
        simp [List.countP_cons, hm, hmm, hg]
        omega
      · have hg' : isGapPos (b1, b2) = false := by
          simpa using hg
        by_cases he : b1 = b2
        · subst he
          have hm : isMatchPos (b1, b1) = true := by simp [isMatchPos, hg']
          have hmm : isMismatchPos (b1, b1) = false := by simp [isMismatchPos]
          simp [List.countP_cons, hm, hmm, hg']
          omega
        · have hm : isMatchPos (b1, b2) = false := by simp [isMatchPos, hg', he]
          have hmm : isMismatchPos (b1, b2) = true := by simp [isMismatchPos, hg', he]
          simp [List.countP_cons, hm, hmm, hg']
          omega

/-- `round2` is monotone-bounded below by 0. -/
theorem round2_nonneg (q : ℚ) (h : 0 ≤ q) : 0 ≤ round2 q := by
  unfold round2
  have h0 : (0 : ℚ) ≤ q * 100 := by linarith
  have hf : (0 : ℤ) ≤ ⌊q * 100⌋ := Int.floor_nonneg.mpr h0
  have hk : (0 : ℤ) ≤
      (if q * 100 - (⌊q * 100⌋ : ℚ) < 1 / 2 then ⌊q * 100⌋
       else if 1 / 2 < q * 100 - (⌊q * 100⌋ : ℚ) then ⌊q * 100⌋ + 1
       else if ⌊q * 100⌋ % 2 = 0 then ⌊q * 100⌋ else ⌊q * 100⌋ + 1) := by
    split_ifs <;> omega
  have hkq : (0 : ℚ) ≤
      ((if q * 100 - (⌊q * 100⌋ : ℚ) < 1 / 2 then ⌊q * 100⌋
        else if 1 / 2 < q * 100 - (⌊q * 100⌋ : ℚ) then ⌊q * 100⌋ + 1
        else if ⌊q * 100⌋ % 2 = 0 then ⌊q * 100⌋ else ⌊q * 100⌋ + 1 : ℤ) : ℚ) := by
    exact_mod_cast hk
  positivity

/-- `round2` never exceeds 100 on inputs at most 100. -/
theorem round2_le_hundred (q : ℚ) (h : q ≤ 100) : round2 q ≤ 100 := by
  unfold round2
  have hn : q * 100 ≤ 10000 := by linarith
  have hfl : (⌊q * 100⌋ : ℚ) ≤ q * 100 := Int.floor_le _
  have hf10 : ⌊q * 100⌋ ≤ 10000 := by
    have h1 : (⌊q * 100⌋ : ℚ) ≤ 10000 := le_trans hfl hn
    exact_mod_cast h1
  have hk : (if q * 100 - (⌊q * 100⌋ : ℚ) < 1 / 2 then ⌊q * 100⌋
       else if 1 / 2 < q * 100 - (⌊q * 100⌋ : ℚ) then ⌊q * 100⌋ + 1
       else if ⌊q * 100⌋ % 2 = 0 then ⌊q * 100⌋ else ⌊q * 100⌋ + 1) ≤ 10000 := by
    split_ifs with h1 h2 h3
    · exact hf10
    · have hh : (⌊q * 100⌋ : ℚ) + 1 / 2 < q * 100 := by linarith
      have hlt : (⌊q * 100⌋ : ℚ) < 10000 := by linarith
      have : ⌊q * 100⌋ < 10000 := by exact_mod_cast hlt
      omega
    · exact hf10
    · have hge : 1 / 2 ≤ q * 100 - (⌊q * 100⌋ : ℚ) := le_of_not_lt h1
      have hlt : (⌊q * 100⌋ : ℚ) < 10000 := by linarith
      have : ⌊q * 100⌋ < 10000 := by exact_mod_cast hlt
      omega
  have hkq : ((if q * 100 - (⌊q * 100⌋ : ℚ) < 1 / 2 then ⌊q * 100⌋
        else if 1 / 2 < q * 100 - (⌊q * 100⌋ : ℚ) then ⌊q * 100⌋ + 1
        else if ⌊q * 100⌋ % 2 = 0 then ⌊q * 100⌋ else ⌊q * 100⌋ + 1 : ℤ) : ℚ) ≤ 10000 := by
    exact_mod_cast hk
  rw [div_le_iff₀ (by norm_num : (0 : ℚ) < 100)]
  linarith

/-- `round2` fixes 0. -/
theorem round2_zero : round2 0 = 0 := by
  norm_num [round2]

/-! ## Claim theorems: alignment derivation -/

/-- C5: for every pair of equal-length aligned strings (no column carries
the gap symbol on both sides — an aligner never emits such a column), the
CIGAR string of `_generate_cigar` is the run-length encoding, one run per
maximal run, of the left-to-right M/I/D classification (M both sides
non-gap, I gap on the second sequence only, D gap on the first sequence
only); the concrete example "ATGC" vs "A--C" is settled in the witness. -/
theorem C5_cigar_rle_classification (s1 s2 : String)
    (hlen : s1.length = s2.length)
    (hng : ∀ p ∈ s1.data.zip s2.data, ¬(p.1 = '-' ∧ p.2 = '-')) :
    generate_cigar s1 s2 =
      renderCigar (rleChar ((s1.data.zip s2.data).filterMap
        (fun p => specClassify p.1 p.2))) := by
  rw [generate_cigar_eq_rle, filterMap_specClassify _ hng]

/-- Witness for C5 at the spec's own example: "ATGC" vs "A--C" satisfies
the hypotheses, and the CIGAR comes out as "1M2I1M". -/
theorem C5_cigar_rle_classification_witness :
    ("ATGC" : String).length = ("A--C" : String).length ∧
    generate_cigar "ATGC" "A--C" =
      renderCigar (rleChar ((("ATGC" : String).data.zip ("A--C" : String).data).filterMap
        (fun p => specClassify p.1 p.2))) ∧
    generate_cigar "ATGC" "A--C" = "1M2I1M" :=
  ⟨by decide, C5_cigar_rle_classification "ATGC" "A--C" (by decide) (by decide), by decide⟩

/-- C6: for every pair of equal-length aligned strings, the reported
identity percentage is matches / (alignment_length − gaps) × 100 rounded
to two decimals, with matches and gaps counted declaratively over the
columns, and it is 0 when every column is a gap (the division is never
taken then). -/
theorem C6_identity_percent_formula (s1 s2 : String) (hlen : s1.length = s2.length) :
    (calculate_alignment_stats s1 s2).identity_percent =
      if (s1.data.zip s2.data).all isGapPos then 0
      else
        round2 ((((s1.data.zip s2.data).countP isMatchPos : ℚ)) /
          ((s1.length - (s1.data.zip s2.data).countP isGapPos : Nat) : ℚ) * 100) := by
  have hzlen : (s1.data.zip s2.data).length = s1.length := by
    rw [List.length_zip]
    have h1 : s1.data.length = s1.length := rfl
    have h2 : s2.data.length = s2.length := rfl
    omega
  simp only [calculate_alignment_stats, statsLoop_spec, Nat.zero_add]
  by_cases hall : (s1.data.zip s2.data).all isGapPos
  · have hcount : (s1.data.zip s2.data).countP isGapPos =
        (s1.data.zip s2.data).length :=
      List.countP_eq_length.mpr (List.all_eq_true.mp hall)
    have hzero : s1.length - (s1.data.zip s2.data).countP isGapPos = 0 := by
      omega
    simp [hall, hzero, round2_zero]
  · have hlt : (s1.data.zip s2.data).countP isGapPos <
        (s1.data.zip s2.data).length := by
      have hle : (s1.data.zip s2.data).countP isGapPos ≤
          (s1.data.zip s2.data).length := List.countP_le_length _
      have hne : (s1.data.zip s2.data).countP isGapPos ≠
          (s1.data.zip s2.data).length := by
        intro hc
        exact hall (List.all_eq_true.mpr (List.countP_eq_length.mp hc))
      omega
    have hpos : 0 < s1.length - (s1.data.zip s2.data).countP isGapPos := by
      omega
    simp [hall, hpos]

/-- C7: for every pair of equal-length aligned strings,
`alignment_length = matches + mismatches + gaps` and the identity
percentage lies in [0, 100]. -/
theorem C7_stats_partition_and_bounds (s1 s2 : String) (hlen : s1.length = s2.length) :
    (calculate_alignment_stats s1 s2).alignment_length =
        (calculate_alignment_stats s1 s2).«matches» +
        (calculate_alignment_stats s1 s2).mismatches +
        (calculate_alignment_stats s1 s2).gaps ∧
    0 ≤ (calculate_alignment_stats s1 s2).identity_percent ∧
    (calculate_alignment_stats s1 s2).identity_percent ≤ 100 := by
  have hzlen : (s1.data.zip s2.data).length = s1.length := by
    rw [List.length_zip]
    have h1 : s1.data.length = s1.length := rfl
    have h2 : s2.data.length = s2.length := rfl
    omega
  have hpart := counts_partition (s1.data.zip s2.data)
  simp only [calculate_alignment_stats, statsLoop_spec, Nat.zero_add]
  refine ⟨by omega, ?_, ?_⟩
  · apply round2_nonneg
    split_ifs with hpos
    · have hcast : (0 : ℚ) <
          ((s1.length - (s1.data.zip s2.data).countP isGapPos : Nat) : ℚ) := by
        exact_mod_cast hpos
      positivity
    · exact le_refl 0
  · apply round2_le_hundred
    split_ifs with hpos
    · have hcast : (0 : ℚ) <
          ((s1.length - (s1.data.zip s2.data).countP isGapPos : Nat) : ℚ) := by
        exact_mod_cast hpos
      have hle : (s1.data.zip s2.data).countP isMatchPos ≤
          s1.length - (s1.data.zip s2.data).countP isGapPos := by
        omega
      have hdiv : (((s1.data.zip s2.data).countP isMatchPos : ℚ)) /
          ((s1.length - (s1.data.zip s2.data).countP isGapPos : Nat) : ℚ) ≤ 1 := by
        rw [div_le_one hcast]
        exact_mod_cast hle
      nlinarith
    · norm_num

/-- C10: the statistics and CIGAR functions classify only the zipped
columns — the first min(len1, len2) of them — so the three counts sum to
min(len1, len2) while `alignment_length` is reported as the length of the
first string, and the CIGAR equals that of the truncated pair. -/
theorem C10_truncation_semantics (s1 s2 : String) (hne : s1.length ≠ s2.length) :
    (calculate_alignment_stats s1 s2).«matches» +
        (calculate_alignment_stats s1 s2).mismatches +
        (calculate_alignment_stats s1 s2).gaps = min s1.length s2.length ∧
    (calculate_alignment_stats s1 s2).alignment_length = s1.length ∧
    generate_cigar s1 s2 =
      generate_cigar (⟨s1.data.take (min s1.length s2.length)⟩ : String)
        (⟨s2.data.take (min s1.length s2.length)⟩ : String) := by
  have hzlen : (s1.data.zip s2.data).length = min s1.length s2.length := by
    rw [List.length_zip]
    rfl
  have hpart := counts_partition (s1.data.zip s2.data)
  refine ⟨?_, rfl, ?_⟩
  · simp only [calculate_alignment_stats, statsLoop_spec, Nat.zero_add]
    omega
  · show String.join (cigarLoop (s1.data.zip s2.data) none 0 []) = _
    have hmin : min s1.length s2.length = min s1.data.length s2.data.length := rfl
    rw [show (s1.data.zip s2.data) =
        ((⟨s1.data.take (min s1.length s2.length)⟩ : String).data.zip
          (⟨s2.data.take (min s1.length s2.length)⟩ : String).data) from by
      rw [hmin]
      exact List.zip_eq_zip_take_min s1.data s2.data]
    rfl

/-- Witness for C6 at "ATGC" vs "A--C". -/
theorem C6_identity_percent_formula_witness :
    ("ATGC" : String).length = ("A--C" : String).length ∧
    (calculate_alignment_stats "ATGC" "A--C").identity_percent =
      (if (("ATGC" : String).data.zip ("A--C" : String).data).all isGapPos then 0
       else
        round2 ((((("ATGC" : String).data.zip ("A--C" : String).data).countP isMatchPos : ℚ)) /
          ((("ATGC" : String).length -
            (("ATGC" : String).data.zip ("A--C" : String).data).countP isGapPos : Nat) : ℚ) *
          100)) :=
  ⟨by decide, C6_identity_percent_formula "ATGC" "A--C" (by decide)⟩

/-- Witness for C7 at "ATGC" vs "A--C". -/
theorem C7_stats_partition_and_bounds_witness :
    ("ATGC" : String).length = ("A--C" : String).length ∧
    ((calculate_alignment_stats "ATGC" "A--C").alignment_length =
        (calculate_alignment_stats "ATGC" "A--C").«matches» +
        (calculate_alignment_stats "ATGC" "A--C").mismatches +
        (calculate_alignment_stats "ATGC" "A--C").gaps ∧
      0 ≤ (calculate_alignment_stats "ATGC" "A--C").identity_percent ∧
      (calculate_alignment_stats "ATGC" "A--C").identity_percent ≤ 100) :=
  ⟨by decide, C7_stats_partition_and_bounds "ATGC" "A--C" (by decide)⟩

/-- Witness for C10 at the unequal-length pair "ATGC" vs "AT". -/
theorem C10_truncation_semantics_witness :
    ("ATGC" : String).length ≠ ("AT" : String).length ∧
    ((calculate_alignment_stats "ATGC" "AT").«matches» +
        (calculate_alignment_stats "ATGC" "AT").mismatches +
        (calculate_alignment_stats "ATGC" "AT").gaps =
          min ("ATGC" : String).length ("AT" : String).length ∧
      (calculate_alignment_stats "ATGC" "AT").alignment_length = ("ATGC" : String).length ∧
      generate_cigar "ATGC" "AT" =
        generate_cigar
          (⟨("ATGC" : String).data.take
            (min ("ATGC" : String).length ("AT" : String).length)⟩ : String)
          (⟨("AT" : String).data.take
            (min ("ATGC" : String).length ("AT" : String).length)⟩ : String)) :=
  ⟨by decide, C10_truncation_semantics "ATGC" "AT" (by decide)⟩

/-! ## Lemmas: job record store -/

/-- After writing back a row, looking its id up returns the new row
(provided the id was present). -/
theorem lookup_setJob (store : JobStore) (job_id : Nat) (j j0 : Job)
    (h : store.lookup job_id = some j0) :
    (setJob job_id j store).lookup job_id = some j := by
  induction store with
  | nil => simp [List.lookup] at h
  | cons e rest ih =>
      obtain ⟨k, j1⟩ := e
      by_cases hk : k = job_id
      · subst hk
        have hset : setJob k j ((k, j1) :: rest) = (k, j) :: setJob k j rest := by
          simp [setJob]
        rw [hset]
        simp [List.lookup]
      · have hk' : (job_id == k) = false := by
          rw [beq_eq_false_iff_ne]
          exact fun hh => hk hh.symm
        have hset : setJob job_id j ((k, j1) :: rest) = (k, j1) :: setJob job_id j rest := by
          simp [setJob, hk]
        have hh : List.lookup job_id rest = some j0 := by
          simpa [List.lookup, hk'] using h
        rw [hset]
        simp only [List.lookup, hk']
        exact ih hh

/-- A non-terminal status is PENDING or RUNNING. -/
theorem not_terminal_iff (s : JobStatus) :
    s.isTerminal = false ↔ (s = JobStatus.PENDING ∨ s = JobStatus.RUNNING) := by
  cases s <;> simp [JobStatus.isTerminal]

/-! ## Claim theorems: job lifecycle -/

/-- C1 counterexample: a job already CANCELLED (terminal, with its
invariant-satisfying null columns) is fed to the worker path; the claim
step does not re-read the status, so the store changes and the job ends
COMPLETED — the delivery is not a no-op and the terminal state is
exited. -/
theorem C1_terminal_job_reprocessed :
    JobStatus.CANCELLED.isTerminal = true ∧
    (process_job 1 (fun _ => Except.ok "done") 9
        [(1, { user_id := 1, status := JobStatus.CANCELLED, result := none,
               error_message := none, completed_at := some 5 })]).2 ≠
      [(1, { user_id := 1, status := JobStatus.CANCELLED, result := none,
             error_message := none, completed_at := some 5 })] ∧
    (process_job 1 (fun _ => Except.ok "done") 9
        [(1, { user_id := 1, status := JobStatus.CANCELLED, result := none,
               error_message := none, completed_at := some 5 })]).2.lookup 1 =
      some { user_id := 1, status := JobStatus.COMPLETED, result := some "done",
             error_message := none, completed_at := some 9 } := by
  refine ⟨rfl, ?_, rfl⟩
  decide

/-- C1 as amended: the worker path re-reads nothing — for any stored job,
terminal or not, delivering its task flips the status to RUNNING and, when
the handler succeeds, commits COMPLETED with the result and completion
time; so redelivery for a terminal job is not a no-op. -/
theorem C1_worker_claim_ignores_terminal (store : JobStore) (job_id now : Nat)
    (job : Job) (handler : Job → Except TaskError String) (r : String)
    (hlook : store.lookup job_id = some job)
    (hh : handler { job with status := JobStatus.RUNNING } = Except.ok r) :
    (process_job job_id handler now store).2.lookup job_id =
      some { job with
             status := JobStatus.COMPLETED
             result := some r
             completed_at := some now } := by
  have hstep1 : update_job_status job_id JobStatus.RUNNING store =
      Except.ok (setJob job_id { job with status := JobStatus.RUNNING } store) := by
    unfold update_job_status
    rw [hlook]
  have h1 : (setJob job_id { job with status := JobStatus.RUNNING } store).lookup job_id =
      some { job with status := JobStatus.RUNNING } :=
    lookup_setJob store job_id _ job hlook
  have hstep2 : mark_job_completed job_id r now
      (setJob job_id { job with status := JobStatus.RUNNING } store) =
      Except.ok (setJob job_id
        { job with
          status := JobStatus.COMPLETED
          result := some r
          completed_at := some now }
        (setJob job_id { job with status := JobStatus.RUNNING } store)) := by
    unfold mark_job_completed
    rw [h1]
  simp only [process_job, hstep1, h1, hh, hstep2]
  exact lookup_setJob _ job_id _ _ h1

/-- Witness for the amended C1 at a concrete CANCELLED job. -/
theorem C1_worker_claim_ignores_terminal_witness :
    ([(1, { user_id := 1, status := JobStatus.CANCELLED, result := none,
            error_message := none, completed_at := some 5 })] : JobStore).lookup 1 =
        some { user_id := 1, status := JobStatus.CANCELLED, result := none,
               error_message := none, completed_at := some 5 } ∧
    (process_job 1 (fun _ => Except.ok "done") 9
        [(1, { user_id := 1, status := JobStatus.CANCELLED, result := none,
               error_message := none, completed_at := some 5 })]).2.lookup 1 =
      some { user_id := 1, status := JobStatus.COMPLETED, result := some "done",
             completed_at := some 9, error_message := none } :=
  ⟨rfl, C1_worker_claim_ignores_terminal
    [(1, { user_id := 1, status := JobStatus.CANCELLED, result := none,
           error_message := none, completed_at := some 5 })] 1 9
    { user_id := 1, status := JobStatus.CANCELLED, result := none,
      error_message := none, completed_at := some 5 }
    (fun _ => Except.ok "done") "done" rfl rfl⟩

/-- C2: owner cancellation of a PENDING or RUNNING job commits
status=CANCELLED with a non-null `completed_at`; on a job already in a
terminal state it raises the validation error and commits nothing (the
operation returns no modified store). -/
theorem C2_cancel_job_spec (store : JobStore) (job_id uid now : Nat) (job : Job)
    (hlook : store.lookup job_id = some job) (hown : job.user_id = uid) :
    ((job.status = JobStatus.PENDING ∨ job.status = JobStatus.RUNNING) →
      cancel_job job_id uid now store =
        Except.ok (setJob job_id
          { job with status := JobStatus.CANCELLED, completed_at := some now } store) ∧
      ({ job with
         status := JobStatus.CANCELLED
         completed_at := some now } : Job).completed_at ≠ none) ∧
    (job.status.isTerminal = true →
      cancel_job job_id uid now store =
        Except.error (TaskError.validation (cancelErrorMessage job.status))) := by
  constructor
  · intro hs
    unfold cancel_job
    rw [hlook]
    simp [hown, hs]
  · intro ht
    have hs : ¬(job.status = JobStatus.PENDING ∨ job.status = JobStatus.RUNNING) := by
      intro hc
      rcases hc with hc | hc <;> rw [hc] at ht <;> simp [JobStatus.isTerminal] at ht
    unfold cancel_job
    rw [hlook]
    simp [hown, hs]

/-- Witness for C2: a PENDING job cancels to CANCELLED with a completion
time; a COMPLETED job is rejected with the validation error. -/
theorem C2_cancel_job_spec_witness :
    (cancel_job 1 4 7
        [(1, { user_id := 4, status := JobStatus.PENDING, result := none,
               error_message := none, completed_at := none })] =
      Except.ok (setJob 1
        { user_id := 4, status := JobStatus.CANCELLED, result := none,
          error_message := none, completed_at := some 7 }
        [(1, { user_id := 4, status := JobStatus.PENDING, result := none,
               error_message := none, completed_at := none })])) ∧
    (cancel_job 1 4 7
        [(1, { user_id := 4, status := JobStatus.COMPLETED, result := some "r",
               error_message := none, completed_at := some 3 })] =
      Except.error (TaskError.validation (cancelErrorMessage JobStatus.COMPLETED))) :=
  ⟨((C2_cancel_job_spec
      [(1, { user_id := 4, status := JobStatus.PENDING, result := none,
             error_message := none, completed_at := none })] 1 4 7
      { user_id := 4, status := JobStatus.PENDING, result := none,
        error_message := none, completed_at := none }
      rfl rfl).1 (Or.inl rfl)).1,
    (C2_cancel_job_spec
      [(1, { user_id := 4, status := JobStatus.COMPLETED, result := some "r",
             error_message := none, completed_at := some 3 })] 1 4 7
      { user_id := 4, status := JobStatus.COMPLETED, result := some "r",
        error_message := none, completed_at := some 3 }
      rfl rfl).2 rfl⟩

/-- C8 counterexample: starting from a freshly created PENDING job,
applying `mark_job_completed` and then `mark_job_failed` (both legal store
operations) yields a FAILED record whose `result` is still non-null — the
invariants are not preserved under arbitrary operation order. -/
theorem C8_failed_after_completed_breaks_invariant :
    ((mark_job_completed 1 "r" 5
        [(1, { user_id := 1, status := JobStatus.PENDING, result := none,
               error_message := none, completed_at := none })]).bind
      (mark_job_failed 1 "e" 6)) =
      Except.ok [(1, { user_id := 1, status := JobStatus.FAILED, result := some "r",
                       error_message := some "e", completed_at := some 6 })] ∧
    ¬ jobInvariant { user_id := 1, status := JobStatus.FAILED, result := some "r",
                     error_message := some "e", completed_at := some 6 } := by
  exact ⟨rfl, by decide⟩

/-- C8 as amended: a freshly created record satisfies the invariants, and
each store operation preserves them when applied to a job still in a
non-terminal state (status updates restricted to non-terminal targets, as
in the worker's claim step); cancel on a terminal job fails without a
write. Operations re-applied after a terminal marking are exactly the
unpreserved cases. -/
theorem C8_ops_preserve_invariants_nonterminal (store : JobStore)
    (job_id uid now : Nat) (job : Job)
    (hlook : store.lookup job_id = some job)
    (hinv : jobInvariant job) (hnt : job.status.isTerminal = false) :
    jobInvariant { user_id := uid, status := JobStatus.PENDING, result := none,
                   error_message := none, completed_at := none } ∧
    (∀ s : JobStatus, s.isTerminal = false →
      update_job_status job_id s store =
        Except.ok (setJob job_id { job with status := s } store) ∧
      jobInvariant { job with status := s }) ∧
    (∀ r : String,
      mark_job_completed job_id r now store =
        Except.ok (setJob job_id
          { job with
            status := JobStatus.COMPLETED
            result := some r
            completed_at := some now } store) ∧
      jobInvariant { job with
                     status := JobStatus.COMPLETED
                     result := some r
                     completed_at := some now }) ∧
    (∀ e : String,
      mark_job_failed job_id e now store =
        Except.ok (setJob job_id
          { job with
            status := JobStatus.FAILED
            error_message := some e
            completed_at := some now } store) ∧
      jobInvariant { job with
                     status := JobStatus.FAILED
                     error_message := some e
                     completed_at := some now }) ∧
    (job.user_id = uid →
      cancel_job job_id uid now store =
        Except.ok (setJob job_id
          { job with status := JobStatus.CANCELLED, completed_at := some now } store) ∧
      jobInvariant { job with
                     status := JobStatus.CANCELLED
                     completed_at := some now }) := by
  obtain ⟨hres, herr, hcomp⟩ := hinv
  have hres0 : job.result = none := by
    by_contra hc
    have := hres.mp hc
    rw [this] at hnt
    simp [JobStatus.isTerminal] at hnt
  have herr0 : job.error_message = none := by
    by_contra hc
    have := herr.mp hc
    rw [this] at hnt
    simp [JobStatus.isTerminal] at hnt
  have hcomp0 : job.completed_at = none := by
    by_contra hc
    have := hcomp.mp hc
    rw [this] at hnt
    simp at hnt
  refine ⟨?_, ?_, ?_, ?_, ?_⟩
  · simp [jobInvariant, JobStatus.isTerminal]
  · intro s hs
    constructor
    · unfold update_job_status
      rw [hlook]
    · constructor
      · simp [hres0]
        intro hc
        rw [hc, JobStatus.isTerminal] at hs
        simp at hs
      · constructor
        · simp [herr0]
          intro hc
          rw [hc, JobStatus.isTerminal] at hs
          simp at hs
        · simp [hcomp0, hs]
  · intro r
    constructor
    · unfold mark_job_completed
      rw [hlook]
    · exact ⟨by simp, by simp [herr0, JobStatus.isTerminal],
        by simp [JobStatus.isTerminal]⟩
  · intro e
    constructor
    · unfold mark_job_failed
      rw [hlook]
    · exact ⟨by simp [hres0, JobStatus.isTerminal], by simp,
        by simp [JobStatus.isTerminal]⟩
  · intro hown
    have hs : job.status = JobStatus.PENDING ∨ job.status = JobStatus.RUNNING :=
      (not_terminal_iff job.status).mp hnt
    constructor
    · unfold cancel_job
      rw [hlook]
      simp [hown, hs]
    · exact ⟨by simp [hres0, JobStatus.isTerminal], by simp [herr0, JobStatus.isTerminal],
        by simp [JobStatus.isTerminal]⟩

/-- Witness for the amended C8 at a fresh PENDING job. -/
theorem C8_ops_preserve_invariants_nonterminal_witness :
    jobInvariant { user_id := 3, status := JobStatus.PENDING, result := none,
                   error_message := none, completed_at := none } ∧
    (mark_job_completed 1 "r" 5
        [(1, { user_id := 3, status := JobStatus.PENDING, result := none,
               error_message := none, completed_at := none })] =
      Except.ok (setJob 1
        { user_id := 3, status := JobStatus.COMPLETED, result := some "r",
          error_message := none, completed_at := some 5 }
        [(1, { user_id := 3, status := JobStatus.PENDING, result := none,
               error_message := none, completed_at := none })])) ∧
    jobInvariant { user_id := 3, status := JobStatus.COMPLETED, result := some "r",
                   error_message := none, completed_at := some 5 } :=
  ⟨(C8_ops_preserve_invariants_nonterminal
      [(1, { user_id := 3, status := JobStatus.PENDING, result := none,
             error_message := none, completed_at := none })] 1 3 5 _
      rfl (by decide) rfl).1,
    ((C8_ops_preserve_invariants_nonterminal
      [(1, { user_id := 3, status := JobStatus.PENDING, result := none,
             error_message := none, completed_at := none })] 1 3 5 _
      rfl (by decide) rfl).2.2.1 "r").1,
    ((C8_ops_preserve_invariants_nonterminal
      [(1, { user_id := 3, status := JobStatus.PENDING, result := none,
             error_message := none, completed_at := none })] 1 3 5 _
      rfl (by decide) rfl).2.2.1 "r").2⟩

/-! ## Claim theorems: structure prediction -/

/-- C3 (divergence): on a successful payload whose two atomic coordinate
records belong to one single residue, `_extract_confidence_scores_from_pdb`
recovers two confidence values — one per atom record, with no per-residue
deduplication — while the payload has exactly one residue; the
zero-values-recovered case does raise the validation error (third
conjunct, on a payload with no coordinate records). -/
theorem C3_confidence_scores_per_atom :
    (extract_confidence_scores_from_pdb pdbTwoAtomsOneResidue).length = 2 ∧
    (residueIds pdbTwoAtomsOneResidue).length = 1 ∧
    (structureMiss sampleProteinSeq "h3"
        { seq := sampleProteinSeq, cache := none, sha256 := fun _ => "h3",
          esmfold := fun _ => Except.ok "REMARK no coordinates", maxResidues := 400,
          nextStructureId := 8 }).result =
      Except.error
        (TaskError.validation
          "ESMFold response did not contain residue confidence scores.") :=
  ⟨by decide, by decide, rfl⟩

/-- Any result produced by the miss path is tagged as a fresh (non-cached)
computation. -/
theorem structureMiss_not_cached (seq : SequenceRec) (sequence_hash : String)
    (env : PredEnv) (r : StructResult)
    (h : (structureMiss seq sequence_hash env).result = Except.ok r) :
    r.cached_result = false := by
  unfold structureMiss at h
  cases he : env.esmfold seq.data with
  | error d => rw [he] at h; simp at h
  | ok pdb_content =>
      rw [he] at h
      by_cases hsc : (extract_confidence_scores_from_pdb pdb_content).isEmpty
      · simp only [if_pos hsc] at h
        simp at h
      · simp only [if_neg hsc] at h
        simp at h
        rw [← h]

/-- C4: when a cache row exists for the sequence, its stored hash equals
the hash of the current residue data, and `force_recompute` is false (and
the §4.3 preconditions admit the job), the handler returns exactly the
cached row's metrics with `cached_result = true` and the existing
structure id, calling no external service and writing nothing; with
`force_recompute = true` the cache is always bypassed — no returned
result is ever a cache hit. -/
theorem C4_cache_hit_policy (env : PredEnv) (params : StructurePredictionParams)
    (s : StructureRec) :
    (env.seq.sequence_type = SequenceType.PROTEIN →
      env.seq.length ≤ env.maxResidues →
      env.cache = some s →
      s.sequence_hash = env.sha256 env.seq.data →
      params.force_recompute = false →
      process_structure_prediction params env =
        { result := Except.ok
            { sequence_id := env.seq.id
              sequence_name := env.seq.name
              structure_id := s.id
              source := s.source
              cached_result := true
              residue_count := s.residue_count
              mean_confidence := s.mean_confidence
              min_confidence := s.min_confidence
              max_confidence := s.max_confidence
              confidence_scores := s.confidence_scores
              pdb_download_path := "/api/sequences/" ++ toString env.seq.id ++
                "/structure/download" }
          esmfoldCalled := false
          saved := none }) ∧
    (params.force_recompute = true →
      ∀ r, (process_structure_prediction params env).result = Except.ok r →
        r.cached_result = false) := by
  constructor
  · intro ht hlen hcache hhash hforce
    have h2 : ¬ env.seq.length > env.maxResidues := by omega
    simp [process_structure_prediction, ht, h2, hcache, hhash, hforce]
  · intro hforce r hr
    unfold process_structure_prediction at hr
    by_cases h1 : env.seq.sequence_type ≠ SequenceType.PROTEIN
    · simp [h1] at hr
    · by_cases h2 : env.seq.length > env.maxResidues
      · simp [h1, h2] at hr
      · cases hc : env.cache with
        | none =>
            simp only [hc, if_neg h1, if_neg h2] at hr
            exact structureMiss_not_cached _ _ _ _ hr
        | some ex =>
            simp only [hc, if_neg h1, if_neg h2, hforce] at hr
            rw [if_neg (by simp :
              ¬(ex.sequence_hash = env.sha256 env.seq.data ∧ true = false))] at hr
            exact structureMiss_not_cached _ _ _ _ hr

/-- Witness for C4 at a concrete environment with a matching cache row. -/
theorem C4_cache_hit_policy_witness :
    sampleCacheEnv.seq.sequence_type = SequenceType.PROTEIN ∧
    sampleCacheEnv.seq.length ≤ sampleCacheEnv.maxResidues ∧
    sampleCacheEnv.cache = some sampleStructureRow ∧
    sampleStructureRow.sequence_hash = sampleCacheEnv.sha256 sampleCacheEnv.seq.data ∧
    process_structure_prediction { sequence_id := 1, force_recompute := false }
        sampleCacheEnv =
      { result := Except.ok
          { sequence_id := sampleCacheEnv.seq.id
            sequence_name := sampleCacheEnv.seq.name
            structure_id := sampleStructureRow.id
            source := sampleStructureRow.source
            cached_result := true
            residue_count := sampleStructureRow.residue_count
            mean_confidence := sampleStructureRow.mean_confidence
            min_confidence := sampleStructureRow.min_confidence
            max_confidence := sampleStructureRow.max_confidence
            confidence_scores := sampleStructureRow.confidence_scores
            pdb_download_path := "/api/sequences/" ++ toString sampleCacheEnv.seq.id ++
              "/structure/download" }
        esmfoldCalled := false
        saved := none } :=
  ⟨rfl, by decide, rfl, rfl,
    (C4_cache_hit_policy sampleCacheEnv { sequence_id := 1, force_recompute := false }
      sampleStructureRow).1 rfl (by decide) rfl rfl rfl⟩

/-- C9: a structure-prediction job whose sequence is not PROTEIN, or whose
residue count exceeds the configured ceiling, fails with a validation
error before any external call and without touching the cache. -/
theorem C9_precondition_rejection (env : PredEnv) (params : StructurePredictionParams)
    (h : env.seq.sequence_type ≠ SequenceType.PROTEIN ∨
      env.seq.length > env.maxResidues) :
    (process_structure_prediction params env).isValidationFailure = true ∧
    (process_structure_prediction params env).esmfoldCalled = false ∧
    (process_structure_prediction params env).saved = none := by
  by_cases h1 : env.seq.sequence_type ≠ SequenceType.PROTEIN
  · simp [process_structure_prediction, h1, PredOutcome.isValidationFailure]
  · have h2 : env.seq.length > env.maxResidues := by tauto
    simp [process_structure_prediction, h1, h2, PredOutcome.isValidationFailure]

/-- Witness for C9 at a concrete DNA-typed sequence. -/
theorem C9_precondition_rejection_witness :
    (sampleDnaEnv.seq.sequence_type ≠ SequenceType.PROTEIN ∨
      sampleDnaEnv.seq.length > sampleDnaEnv.maxResidues) ∧
    ((process_structure_prediction { sequence_id := 2, force_recompute := false }
        sampleDnaEnv).isValidationFailure = true ∧
      (process_structure_prediction { sequence_id := 2, force_recompute := false }
        sampleDnaEnv).esmfoldCalled = false ∧
      (process_structure_prediction { sequence_id := 2, force_recompute := false }
        sampleDnaEnv).saved = none) :=
  ⟨Or.inl (by decide),
    C9_precondition_rejection sampleDnaEnv { sequence_id := 2, force_recompute := false }
      (Or.inl (by decide))⟩

end Chromatin
